import Mathlib

/-!
Verification development for the sec-monitor repository.

The pipeline (src/pipeline.py) fetches items from two SEC RSS feeds and one
scraped meetings page, asks an external classification service whether each
new item is crypto-related, and stores accepted items in a SQLite table with
a UNIQUE constraint on `url` (src/database.py).  src/generate.py and
src/app.py display the stored items.

The definitions below are a shallow embedding of that code.  External
effects (HTTP responses, the classification service reply, SQLite faults)
are passed in as explicit values; machine behaviour of the Python string
and JSON library functions used by the code is reimplemented on Lean
strings and character lists so that every definition is executable.
-/

namespace SecMonitor

/-! ## Python string helpers

Executable models of the Python `str` operations the source uses:
`strip`, `startswith`, `split("```")`, slicing, and `str.replace`. -/

/-- Whitespace characters stripped by Python `str.strip()`
(the ASCII subset, which is all that occurs in this pipeline). -/
def isWsChar (c : Char) : Bool :=
  c == ' ' || c == '\t' || c == '\n' || c == '\r'

/-- Drop leading whitespace characters. -/
def dropWs : List Char → List Char
  | [] => []
  | c :: cs => if isWsChar c then dropWs cs else c :: cs

/-- Python `s.strip()`: remove leading and trailing whitespace. -/
def pyStrip (s : String) : String :=
  String.mk (((dropWs s.toList).reverse |> dropWs).reverse)

/-- Character-list version of Python `s.startswith(p)`. -/
def charsStartWith : List Char → List Char → Bool
  | _, [] => true
  | [], _ :: _ => false
  | c :: cs, p :: ps => c == p && charsStartWith cs ps

/-- Python `s.startswith(p)`. -/
def pyStartsWith (s p : String) : Bool :=
  charsStartWith s.toList p.toList

/-- Python `s[n:]`. -/
def pyDrop (s : String) (n : Nat) : String :=
  String.mk (s.toList.drop n)

/-- Backtick character (ASCII 96). -/
def backtickChar : Char := Char.ofNat 96

/-- Worker for `pySplitFence`: split a character list at every occurrence
of the three-backtick fence, Python `str.split` style. -/
def splitFenceAux : List Char → List Char → List (List Char)
  | acc, [] => [acc.reverse]
  | acc, [c1] => [(c1 :: acc).reverse]
  | acc, [c1, c2] => [(c2 :: c1 :: acc).reverse]
  | acc, c1 :: c2 :: c3 :: rest =>
    if c1 == backtickChar && c2 == backtickChar && c3 == backtickChar then
      acc.reverse :: splitFenceAux [] rest
    else
      splitFenceAux (c1 :: acc) (c2 :: c3 :: rest)

/-- Python `s.split("```")`. -/
def pySplitFence (s : String) : List String :=
  (splitFenceAux [] s.toList).map String.mk

/-- Python `reason.replace(CHR(34), "&quot;")` from generate.py line 41:
escape every double-quote character. -/
def replaceQuotAux : List Char → List Char
  | [] => []
  | c :: rest =>
    if c == '"' then '&' :: 'q' :: 'u' :: 'o' :: 't' :: ';' :: replaceQuotAux rest
    else c :: replaceQuotAux rest

/-- Python `s.replace(CHR(34), "&quot;")`. -/
def pyReplaceQuot (s : String) : String :=
  String.mk (replaceQuotAux s.toList)

/-- Decimal digits of a natural number (fuelled; fuel `n + 1` suffices). -/
def natToChars : Nat → Nat → List Char
  | 0, _ => []
  | fuel + 1, n =>
    if n < 10 then [Nat.digitChar n]
    else natToChars fuel (n / 10) ++ [Nat.digitChar (n % 10)]

/-- Python `str(i)` for an integer, as interpolated by an f-string. -/
def intToStr (i : Int) : String :=
  match i with
  | Int.ofNat n => String.mk (natToChars (n + 1) n)
  | Int.negSucc m => "-" ++ String.mk (natToChars (m + 2) (m + 1))

/-! ## JSON values and a model of `json.loads`

The classifier parses the service reply with `json.loads`.  `Json` models
the Python values that parse can produce; the parser below covers the
grammar fragment the classifier deals with (objects, arrays, strings
without escape sequences, integers, `true`/`false`/`null`), which is the
subset relevant to every statement proved about it: the general theorems
are conditioned on the parse outcome, and the concrete inputs used below
stay inside this fragment. -/

inductive Json where
  | null
  | bool (b : Bool)
  | num (n : Int)
  | str (s : String)
  | arr (elems : List Json)
  | obj (fields : List (String × Json))

/-- Python truthiness of a JSON-decoded value, as used by
`if is_relevant:` in run_pipeline (pipeline.py line 253). -/
def truthy : Json → Bool
  | Json.null => false
  | Json.bool b => b
  | Json.num n => n != 0
  | Json.str s => !s.toList.isEmpty
  | Json.arr l => !l.isEmpty
  | Json.obj l => !l.isEmpty

/-- Python `dict.get(key, dflt)` on a decoded JSON object.  `json.loads`
builds a `dict`, where a repeated key keeps the last value, hence the
search from the right. -/
def dictGet (fields : List (String × Json)) (key : String) (dflt : Json) : Json :=
  match fields.reverse.find? (fun kv => kv.1 == key) with
  | some kv => kv.2
  | none => dflt

/-- Opening-brace character (ASCII 123). -/
def lbraceChar : Char := Char.ofNat 123

/-- Closing-brace character (ASCII 125). -/
def rbraceChar : Char := Char.ofNat 125

/-- Parse a run of decimal digits, accumulating into `acc`. -/
def parseDigitsAux : List Char → Nat → Nat × List Char
  | [], acc => (acc, [])
  | c :: cs, acc =>
    if c.isDigit then parseDigitsAux cs (acc * 10 + (c.toNat - 48))
    else (acc, c :: cs)

/-- Parse a JSON integer (optional minus sign, at least one digit). -/
def parseInt? : List Char → Option (Int × List Char)
  | [] => none
  | c :: cs =>
    if c == '-' then
      match cs with
      | [] => none
      | d :: ds =>
        if d.isDigit then
          let (n, rest) := parseDigitsAux ds (d.toNat - 48)
          some (-(n : Int), rest)
        else none
    else if c.isDigit then
      let (n, rest) := parseDigitsAux cs (c.toNat - 48)
      some ((n : Int), rest)
    else none

/-- Parse the body of a JSON string after the opening quote, up to the
closing quote (escape sequences are outside the modelled fragment). -/
def parseStringBody : List Char → Option (List Char × List Char)
  | [] => none
  | c :: cs =>
    if c == '"' then some ([], cs)
    else (parseStringBody cs).map (fun p => (c :: p.1, p.2))

mutual

/-- Fuelled JSON value parser. -/
def parseJsonV : Nat → List Char → Option (Json × List Char)
  | 0, _ => none
  | fuel + 1, cs0 =>
    let cs := dropWs cs0
    match cs with
    | [] => none
    | c :: rest =>
      if c == '"' then
        (parseStringBody rest).map (fun p => (Json.str (String.mk p.1), p.2))
      else if c == '[' then
        match dropWs rest with
        | [] => none
        | c2 :: r2 =>
          if c2 == ']' then some (Json.arr [], r2)
          else (parseArrItems fuel (dropWs rest)).map (fun p => (Json.arr p.1, p.2))
      else if c == lbraceChar then
        match dropWs rest with
        | [] => none
        | c2 :: r2 =>
          if c2 == rbraceChar then some (Json.obj [], r2)
          else (parseObjItems fuel (dropWs rest)).map (fun p => (Json.obj p.1, p.2))
      else if charsStartWith cs ("true".toList) then
        some (Json.bool true, cs.drop 4)
      else if charsStartWith cs ("false".toList) then
        some (Json.bool false, cs.drop 5)
      else if charsStartWith cs ("null".toList) then
        some (Json.null, cs.drop 4)
      else
        (parseInt? cs).map (fun p => (Json.num p.1, p.2))

/-- Fuelled parser for the comma-separated items of a non-empty array. -/
def parseArrItems : Nat → List Char → Option (List Json × List Char)
  | 0, _ => none
  | fuel + 1, cs => do
    let (j, r) ← parseJsonV fuel cs
    match dropWs r with
    | [] => none
    | c :: r2 =>
      if c == ',' then
        (parseArrItems fuel r2).map (fun p => (j :: p.1, p.2))
      else if c == ']' then some ([j], r2)
      else none

/-- Fuelled parser for the members of a non-empty object. -/
def parseObjItems : Nat → List Char → Option (List (String × Json) × List Char)
  | 0, _ => none
  | fuel + 1, cs0 =>
    match dropWs cs0 with
    | [] => none
    | c :: r =>
      if c == '"' then do
        let (k, r1) ← parseStringBody r
        match dropWs r1 with
        | [] => none
        | c2 :: r3 =>
          if c2 == ':' then do
            let (v, r4) ← parseJsonV fuel r3
            match dropWs r4 with
            | [] => none
            | c3 :: r6 =>
              if c3 == ',' then
                (parseObjItems fuel r6).map (fun p => ((String.mk k, v) :: p.1, p.2))
              else if c3 == rbraceChar then some ([(String.mk k, v)], r6)
              else none
          else none
      else none

end

/-- Model of Python `json.loads`: parse one value and require only
whitespace after it. -/
def jsonLoads (s : String) : Option Json :=
  match parseJsonV (2 * s.toList.length + 8) s.toList with
  | some (j, rest) => if (dropWs rest).isEmpty then some j else none
  | none => none

/-! ## Data model -/

/-- The in-memory item dict built by the fetchers (pipeline.py lines 69-75
and 117-123): keys `source`, `title`, `url`, `published`, `summary`. -/
structure Item where
  source : String
  title : String
  url : String
  published : String
  summary : String
deriving DecidableEq, Repr

/-- A row of the SQLite `items` table (database.py lines 22-32), with the
columns the pipeline writes.  `id` and `created_at` are filled in by
SQLite itself and play no part in the claims about this table, so they are
omitted from the embedding.  `ai_reason` holds whatever decoded value the
classifier returned. -/
structure Row where
  source : String
  title : String
  url : String
  published : String
  summary : String
  ai_reason : Json

/-- One feedparser entry as consumed by fetch_rss_items (pipeline.py lines
68-75).  Each field is `none` when the feed entry lacks that key, matching
`entry.get(...)`. -/
structure RssEntry where
  title : Option String
  link : Option String
  published : Option String
  summary : Option String
deriving DecidableEq, Repr

/-- One `li.usa-collection__item` event card of the meetings page as seen
by fetch_meeting_items (pipeline.py lines 96-112): `heading` is the
`(link text, href)` pair when the `h3` heading contains a link (cards
without one are skipped), `description` the optional `p` text, `dateText`
the optional date line. -/
structure MeetingCard where
  heading : Option (String × String)
  description : Option String
  dateText : Option String
deriving DecidableEq, Repr

/-- The `requests.get` response for the meetings page: its HTTP status
code and the event cards parsed from its body. -/
structure MeetingsResponse where
  statusCode : Nat
  cards : List MeetingCard
deriving DecidableEq, Repr

/-- Transport failures of `requests.get` for the meetings page: a network
error, a timeout (pipeline.py line 89 passes `timeout=15`), or a non-2xx
status surfaced by `raise_for_status` (line 90). -/
inductive FetchError where
  | connectionFailed
  | timedOut
  | httpStatus (code : Nat)
deriving DecidableEq, Repr

/-- Transport failures of the classification request
(`client.messages.create`, pipeline.py lines 159-163). -/
inductive TransportFail where
  | timedOut
  | apiStatus (code : Nat)
deriving DecidableEq, Repr

/-- The exceptions that can escape is_crypto_related: the client
constructor raising because no credential is configured, an uncaught
transport failure of the service call, and the uncaught AttributeError
raised by `result.get` when the decoded reply is not a dict. -/
inductive CError where
  | noCredential
  | transport (e : TransportFail)
  | attributeError
deriving DecidableEq, Repr

/-- Environmental failure modes of the SQLite INSERT executed by
save_item: a healthy database, a missing `items` table, or an I/O failure
of the underlying storage. -/
inductive DbFault where
  | healthy
  | missingTable
  | diskFailure
deriving DecidableEq, Repr

/-- The exceptions `conn.execute(INSERT ...)` can raise: the UNIQUE
constraint violation on `url`, a missing table, or a disk failure. -/
inductive DbError where
  | uniqueViolation
  | noSuchTable
  | diskError
deriving DecidableEq, Repr

/-- An exception escaping run_pipeline: an uncaught fetch failure or an
uncaught classifier failure. -/
inductive RunError where
  | fetch (e : FetchError)
  | classify (e : CError)
deriving DecidableEq, Repr

/-- The outcome of a completed run: the final store contents, the two
counters of pipeline.py lines 240-241, and `done`, which records that the
final report of line 259 was reached. -/
structure RunReport where
  store : List Row
  newCount : Nat
  relevantCount : Nat
  done : Bool

/-! ## Fetchers -/

/-- The item fetch_rss_items builds from one feed entry (pipeline.py lines
69-75): every field read with `entry.get`, title/link/summary stripped,
and `summary` falling back to the entry title when the entry has no
summary key. -/
def rssItem (sourceName : String) (e : RssEntry) : Item :=
  { source := sourceName
    title := pyStrip (e.title.getD "")
    url := pyStrip (e.link.getD "")
    published := e.published.getD ""
    summary := pyStrip (e.summary.getD (e.title.getD "")) }

/-- fetch_rss_items (pipeline.py lines 56-78).  feedparser.parse does not
raise on a network failure or bad payload: it returns a feed object whose
`entries` list is empty, so a feed outage is represented by
`entries = []` and this fetcher is total. -/
def fetch_rss_items (entries : List RssEntry) (sourceName : String) : List Item :=
  entries.map (rssItem sourceName)

/-- The item fetch_meeting_items builds from one event card (pipeline.py
lines 96-123); cards whose heading has no link are skipped (`continue`),
the url is the href prefixed with the site origin, and the summary is the
synthesized `title`, dot, space, `description`, stripped. -/
def meetingCardItem (card : MeetingCard) : Option Item :=
  match card.heading with
  | none => none
  | some (title, relative_url) =>
    some { source := "open_meeting"
           title := title
           url := "https://www.sec.gov" ++ relative_url
           published := card.dateText.getD ""
           summary := pyStrip (title ++ ". " ++ card.description.getD "") }

/-- fetch_meeting_items (pipeline.py lines 81-126): `requests.get` may
fail (left input), `raise_for_status` raises for a 4xx/5xx status, and
otherwise each parsed card contributes at most one item.  Nothing in the
function catches these errors. -/
def fetch_meeting_items (resp : Except FetchError MeetingsResponse) :
    Except FetchError (List Item) :=
  match resp with
  | Except.error e => Except.error e
  | Except.ok r =>
    if 400 ≤ r.statusCode then Except.error (FetchError.httpStatus r.statusCode)
    else Except.ok (r.cards.filterMap meetingCardItem)

/-! ## Classifier -/

/-- The fence-stripping of pipeline.py lines 165-173: strip the reply,
and if it starts with a three-backtick fence, take the text between the
first two fences, drop a leading `json` tag, and strip again. -/
def stripFences (text : String) : String :=
  let raw := pyStrip text
  if pyStartsWith raw "```" then
    let raw1 := (pySplitFence raw).getD 1 ""
    let raw2 := if pyStartsWith raw1 "json" then pyDrop raw1 4 else raw1
    pyStrip raw2
  else raw

/-- The no-verdict result `(False, "")` returned at pipeline.py line 181,
as the pair of decoded values the function yields. -/
def noVerdict : Json × Json := (Json.bool false, Json.str "")

/-- is_crypto_related (pipeline.py lines 133-181).

`apiKey` is the configured credential: `anthropic.Anthropic()` at line 142
reads it from the environment and its constructor raises when none is
configured (that is the documented behaviour of the anthropic client
library), which nothing here catches.  `serviceReply` is the outcome of
`client.messages.create` (lines 159-163): transport failures are likewise
uncaught.  On a reply text, the code strips fences, runs `json.loads`, and
returns `(result.get("is_relevant", False), result.get("reason", ""))`;
only `json.JSONDecodeError` is caught (line 178), so a reply that decodes
to a non-dict value makes `result.get` raise AttributeError.  `title` and
`summary` only feed the prompt (lines 144-157) and do not influence the
modelled control flow. -/
def is_crypto_related (apiKey : Option String)
    (serviceReply : Except TransportFail String)
    (title summary : String) : Except CError (Json × Json) :=
  match apiKey with
  | none => Except.error CError.noCredential
  | some _ =>
    match serviceReply with
    | Except.error e => Except.error (CError.transport e)
    | Except.ok text =>
      let raw := stripFences text
      match jsonLoads raw with
      | none => Except.ok noVerdict
      | some (Json.obj fields) =>
        Except.ok (dictGet fields "is_relevant" (Json.bool false),
                   dictGet fields "reason" (Json.str ""))
      | some _ => Except.error CError.attributeError

/-! ## Store -/

/-- Whether a row with this url is already present: the lookup behind the
UNIQUE constraint of database.py line 26. -/
def urlExists (s : List Row) (u : String) : Bool :=
  s.any (fun r => r.url == u)

/-- already_saved (pipeline.py lines 212-218): `SELECT 1 FROM items WHERE
url = ?` returned a row. -/
def already_saved (s : List Row) (u : String) : Bool :=
  (s.find? (fun r => r.url == u)).isSome

/-- The row the INSERT of pipeline.py lines 192-205 writes for an item. -/
def mkRow (item : Item) (reason : Json) : Row :=
  { source := item.source
    title := item.title
    url := item.url
    published := item.published
    summary := item.summary
    ai_reason := reason }

/-- The INSERT against a healthy database: SQLite raises the UNIQUE
constraint violation when the url is already stored, and otherwise
appends the row. -/
def insertRow (s : List Row) (r : Row) : Except DbError (List Row) :=
  if urlExists s r.url then Except.error DbError.uniqueViolation
  else Except.ok (s ++ [r])

/-- The INSERT including environmental failure modes: a missing table or
a disk failure raise and leave the store unchanged. -/
def sqliteInsert (fault : DbFault) (s : List Row) (r : Row) :
    Except DbError (List Row) :=
  match fault with
  | DbFault.healthy => insertRow s r
  | DbFault.missingTable => Except.error DbError.noSuchTable
  | DbFault.diskFailure => Except.error DbError.diskError

/-- save_item (pipeline.py lines 188-209): the INSERT runs inside
`try ... except Exception: pass`, so every exception the INSERT raises is
swallowed and the store keeps its previous contents; the result is the
store state after the call, and it is always an `ok` because the bare
except catches everything. -/
def save_item (fault : DbFault) (s : List Row) (item : Item) (reason : Json) :
    Except DbError (List Row) :=
  match sqliteInsert fault s (mkRow item reason) with
  | Except.ok s2 => Except.ok s2
  | Except.error _ => Except.ok s

/-- The store state after a save_item call against a healthy database,
as seen by the rest of the run. -/
def saveItemState (s : List Row) (item : Item) (reason : Json) : List Row :=
  match save_item DbFault.healthy s item reason with
  | Except.ok s2 => s2
  | Except.error _ => s

/-- The Store uniqueness invariant: all stored urls are pairwise
distinct. -/
def urlsUnique (s : List Row) : Prop :=
  (s.map Row.url).Nodup

instance (s : List Row) : Decidable (urlsUnique s) := by
  unfold urlsUnique; infer_instance

/-! ## Orchestration -/

/-- The per-item loop of run_pipeline (pipeline.py lines 243-259): skip
items whose url is already saved, otherwise classify (an exception from
the classifier propagates, ending the loop), count the item as new, and
save it when the verdict is truthy.  Returns the final store and the two
counters reported at line 259. -/
def processLoop (classify : String → String → Except CError (Json × Json)) :
    List Row → Nat → Nat → List Item → Except CError (List Row × Nat × Nat)
  | s, newCount, relevantCount, [] => Except.ok (s, newCount, relevantCount)
  | s, newCount, relevantCount, item :: rest =>
    if already_saved s item.url then
      processLoop classify s newCount relevantCount rest
    else
      match classify item.title item.summary with
      | Except.error e => Except.error e
      | Except.ok (is_relevant, reason) =>
        if truthy is_relevant then
          processLoop classify (saveItemState s item reason)
            (newCount + 1) (relevantCount + 1) rest
        else
          processLoop classify s (newCount + 1) relevantCount rest

/-- run_pipeline (pipeline.py lines 225-259): fetch the two feeds (total)
and the meetings page (an uncaught FetchError propagates, so in that case
no item of any source is analyzed or stored and the final report is never
reached), concatenate, then run the per-item loop with the real
classifier (an uncaught classifier exception likewise propagates).  A
normal completion yields the report with `done := true`. -/
def run_pipeline (apiKey : Option String)
    (service : String → String → Except TransportFail String)
    (s : List Row) (pressFeed litigationFeed : List RssEntry)
    (meetingsResp : Except FetchError MeetingsResponse) :
    Except RunError RunReport :=
  match fetch_meeting_items meetingsResp with
  | Except.error e => Except.error (RunError.fetch e)
  | Except.ok all3 =>
    match processLoop (fun t sm => is_crypto_related apiKey (service t sm) t sm)
        s 0 0 (fetch_rss_items pressFeed "press_release" ++
          fetch_rss_items litigationFeed "litigation_release" ++ all3) with
    | Except.error e => Except.error (RunError.classify e)
    | Except.ok (s2, n, r) =>
      Except.ok { store := s2, newCount := n, relevantCount := r, done := true }

/-! ## Display: generate.py and app.py -/

/-- One record of `items.json` as consumed by generate.py and app.py.
`ai_score` is `none` when the key is absent; `created_at` is the
ingestion timestamp (the ISO-8601 strings of the data file order
chronologically, modelled as a numeric timestamp). -/
structure JsonItem where
  source : String
  title : String
  url : String
  published : String
  summary : String
  ai_score : Option Int
  ai_score_reason : Option String
  created_at : Nat
deriving DecidableEq, Repr

/-- The parsed contents of `items.json` (generate.py lines 88-92,
app.py lines 357-362). -/
structure StoreFile where
  items : List JsonItem
  last_updated : Option String
deriving DecidableEq, Repr

/-- SCORE_COLORS (generate.py lines 16-22). -/
def SCORE_COLORS : List (Int × String) :=
  [(1, "#484f58"), (2, "#58a6ff"), (3, "#e3b341"), (4, "#f0883e"), (5, "#ff7b72")]

/-- `SCORE_COLORS.get(score, "#484f58")` (generate.py line 40). -/
def scoreColor (score : Int) : String :=
  match SCORE_COLORS.find? (fun p => p.1 == score) with
  | some p => p.2
  | none => "#484f58"

/-- The no-score marker returned at generate.py line 39. -/
def NO_SCORE_HTML : String := "<span class=\"score-none\">&mdash;</span>"

/-- The score span built at generate.py lines 42-45 for a truthy score:
color from SCORE_COLORS with a default, tooltip from the quote-escaped
reason, and the score value before the `/5` suffix. -/
def scoreSpanHtml (score : Int) (reason : String) : String :=
  let color := scoreColor score
  let tip := if reason == "" then "" else pyReplaceQuot reason
  "<span class=\"ai-score\" style=\"color:" ++ color ++ "\" title=\"" ++ tip ++
    "\">" ++ intToStr score ++ "<span class=\"score-of\">/5</span></span>"

/-- ai_score_html (generate.py lines 35-45): `score = item.get("ai_score")`
followed by `if not score`, so both an absent score and a zero score take
the no-score branch; any other value is rendered by the score span. -/
def ai_score_html (item : JsonItem) : String :=
  let reason := item.ai_score_reason.getD ""
  match item.ai_score with
  | none => NO_SCORE_HTML
  | some score => if score == 0 then NO_SCORE_HTML else scoreSpanHtml score reason

/-- load_items (app.py lines 357-362): parse `items.json` verbatim when
it exists, otherwise an empty store with no last-updated time. -/
def load_items (file : Option StoreFile) : StoreFile :=
  match file with
  | some data => data
  | none => { items := [], last_updated := none }

/-- The sequence of items the generated page presents, top to bottom:
generate.py line 104 joins `render_row(item)` over `items` in list order,
and the dashboard template of app.py iterates `items` the same way, so
the displayed order is exactly the order of the `items` array of the data
file. -/
def rows_in_display_order (data : StoreFile) : List JsonItem :=
  data.items

/-- Newest-first comparison on ingestion time, the display order of
spec section 4.4. -/
def newest_first (a b : JsonItem) : Prop :=
  b.created_at ≤ a.created_at

instance : DecidableRel newest_first :=
  fun a b => Nat.decLe b.created_at a.created_at

instance : IsTotal JsonItem newest_first :=
  ⟨fun a b => Nat.le_total b.created_at a.created_at⟩

instance : IsTrans JsonItem newest_first :=
  ⟨fun _ _ _ hab hbc => Nat.le_trans hbc hab⟩

/-- Modelled from the spec: the pipeline variant that writes the
`items.json` data file read by app.py and generate.py is not part of
src/ (no file under src/ writes that file; the SQLite-writing variant in
src/pipeline.py is a sibling of it).  Spec section 4.4 fixes the missing
writer's contract — `list_all(order=newest_first)` — so the store
presents its rows sorted newest-first by `created_at`. -/
def list_all (rows : List JsonItem) : List JsonItem :=
  List.insertionSort newest_first rows

/-- Modelled from the spec: the missing items.json writer persists the
store listing (newest first, per section 4.4) together with the
last-updated stamp that app.py and generate.py display. -/
def write_items_json (rows : List JsonItem) (now : String) : StoreFile :=
  { items := list_all rows, last_updated := some now }

/-- The end-to-end displayed listing: the modelled writer produces
`items.json`, app.py/generate.py load it and render its items in file
order. -/
def displayed (rows : List JsonItem) (now : String) : List JsonItem :=
  rows_in_display_order (load_items (some (write_items_json rows now)))

/-! ## Concrete fixtures

Small concrete inputs used by the witness and counterexample theorems
below. -/

/-- Opening brace as a string (for building JSON object literals). -/
def lbS : String := String.singleton lbraceChar

/-- Closing brace as a string. -/
def rbS : String := String.singleton rbraceChar

/-- A well-formed service reply marking an item as relevant. -/
def relevantReply : String :=
  lbS ++ "\"is_relevant\": true, \"reason\": \"crypto\"" ++ rbS

/-- A classification service that marks every item relevant. -/
def serviceAlwaysRelevant : String → String → Except TransportFail String :=
  fun _ _ => Except.ok relevantReply

/-- A classification service whose every call times out. -/
def serviceTimesOut : String → String → Except TransportFail String :=
  fun _ _ => Except.error TransportFail.timedOut

/-- A feed entry for a crypto-related press release. -/
def entryCrypto : RssEntry :=
  { title := some "SEC Charges Crypto Fund"
    link := some "https://www.sec.gov/pr-1"
    published := some "Mon, 06 Jan 2025"
    summary := some "An enforcement action about digital assets." }

/-- A second feed entry with a distinct url. -/
def entryCrypto2 : RssEntry :=
  { title := some "SEC Halts Token Offering"
    link := some "https://www.sec.gov/pr-2"
    published := none
    summary := some "Another enforcement action about digital assets." }

/-- A feed entry carrying no summary key and no title key. -/
def entryBare : RssEntry :=
  { title := none
    link := some "https://www.sec.gov/pr-3"
    published := none
    summary := none }

/-- A meetings-page event card with a heading but no description. -/
def cardNoDesc : MeetingCard :=
  { heading := some ("Sunshine Act Meeting", "/news/m1")
    description := none
    dateText := some "Jan 9, 2025" }

/-- A meetings-page response with no event cards. -/
def respEmpty : MeetingsResponse := { statusCode := 200, cards := [] }

/-- A meetings-page response carrying the one card above. -/
def respOneCard : MeetingsResponse := { statusCode := 200, cards := [cardNoDesc] }

/-- A stored item used by the store theorems. -/
def itemA : Item :=
  { source := "press_release", title := "A", url := "https://www.sec.gov/a"
    published := "", summary := "A" }

/-- A second item whose url collides with `itemA`. -/
def itemADup : Item :=
  { source := "open_meeting", title := "A again", url := "https://www.sec.gov/a"
    published := "", summary := "A again" }

/-- The row save_item writes for `itemA`. -/
def rowA : Row := mkRow itemA (Json.str "r")

/-- The report of a first concrete run: one item fetched from the press
feed, analyzed, accepted and stored. -/
def repFirstRun : RunReport :=
  { store := [mkRow (rssItem "press_release" entryCrypto) (Json.str "crypto")]
    newCount := 1, relevantCount := 1, done := true }

/-- A displayed item carrying the out-of-range score 7. -/
def itemScore7 : JsonItem :=
  { source := "press_release", title := "Z", url := "https://www.sec.gov/z"
    published := "2025-01-06", summary := "Zs"
    ai_score := some 7, ai_score_reason := some "n/a", created_at := 3 }

/-- A displayed item with no score. -/
def itemNoScore : JsonItem :=
  { source := "press_release", title := "Y", url := "https://www.sec.gov/y"
    published := "2025-01-05", summary := "Ys"
    ai_score := none, ai_score_reason := none, created_at := 4 }

/-- A store record ingested at time 1. -/
def jOld : JsonItem :=
  { source := "open_meeting", title := "Old", url := "https://www.sec.gov/o"
    published := "", summary := "Old"
    ai_score := none, ai_score_reason := none, created_at := 1 }

/-- A store record ingested at time 2. -/
def jNew : JsonItem :=
  { source := "open_meeting", title := "New", url := "https://www.sec.gov/n"
    published := "", summary := "New"
    ai_score := none, ai_score_reason := none, created_at := 2 }

/-! ## Helper lemmas about the store -/

theorem already_saved_eq_urlExists (s : List Row) (u : String) :
    already_saved s u = urlExists s u := by
  induction s with
  | nil => rfl
  | cons r t ih =>
    simp only [already_saved, urlExists] at ih ⊢
    cases h : (r.url == u) <;>
      simp [List.find?_cons, List.any_cons, h, ih]

theorem not_mem_map_url_of_not_exists {s : List Row} {u : String}
    (h : urlExists s u = false) : u ∉ s.map Row.url := by
  intro hmem
  rw [List.mem_map] at hmem
  obtain ⟨r, hr, hru⟩ := hmem
  have ht : urlExists s u = true := by
    simp only [urlExists, List.any_eq_true]
    exact ⟨r, hr, by simp [hru]⟩
  rw [h] at ht
  cases ht

theorem saveItemState_of_new {s : List Row} {item : Item} {reason : Json}
    (h : urlExists s item.url = false) :
    saveItemState s item reason = s ++ [mkRow item reason] := by
  simp [saveItemState, save_item, sqliteInsert, insertRow, mkRow, h]

theorem saveItemState_of_dup {s : List Row} {item : Item} {reason : Json}
    (h : urlExists s item.url = true) :
    saveItemState s item reason = s := by
  simp [saveItemState, save_item, sqliteInsert, insertRow, mkRow, h]

theorem urlExists_append (s l : List Row) (u : String) :
    urlExists (s ++ l) u = (urlExists s u || urlExists l u) := by
  simp [urlExists, List.any_append]

theorem urlExists_saveItemState_mono {s : List Row} {u : String}
    (item : Item) (reason : Json) (h : urlExists s u = true) :
    urlExists (saveItemState s item reason) u = true := by
  cases hx : urlExists s item.url with
  | true => rw [saveItemState_of_dup hx]; exact h
  | false => rw [saveItemState_of_new hx, urlExists_append, h, Bool.true_or]

theorem urlExists_saveItemState_self (s : List Row) (item : Item) (reason : Json) :
    urlExists (saveItemState s item reason) item.url = true := by
  cases hx : urlExists s item.url with
  | true => rw [saveItemState_of_dup hx]; exact hx
  | false =>
    rw [saveItemState_of_new hx, urlExists_append, hx, Bool.false_or]
    simp [urlExists, mkRow]

/-- C3: url uniqueness is an invariant of the Store preserved by every
save_item call, whatever the fault mode of the INSERT: the call never
raises, the resulting store still has pairwise-distinct urls, and when the
url is already stored the attempt leaves the store unchanged. -/
theorem store_url_uniqueness (fault : DbFault) (s : List Row) (item : Item)
    (reason : Json) (hu : urlsUnique s) :
    ∃ s1, save_item fault s item reason = Except.ok s1 ∧ urlsUnique s1 ∧
      (already_saved s item.url = true → s1 = s) := by
  cases fault with
  | missingTable => exact ⟨s, rfl, hu, fun _ => rfl⟩
  | diskFailure => exact ⟨s, rfl, hu, fun _ => rfl⟩
  | healthy =>
    cases hx : urlExists s item.url with
    | true =>
      refine ⟨s, ?_, hu, fun _ => rfl⟩
      simp [save_item, sqliteInsert, insertRow, mkRow, hx]
    | false =>
      refine ⟨s ++ [mkRow item reason], ?_, ?_, ?_⟩
      · simp [save_item, sqliteInsert, insertRow, mkRow, hx]
      · unfold urlsUnique at hu ⊢
        rw [List.map_append]
        refine List.Nodup.append hu (List.nodup_singleton _) ?_
        intro u humem hsing
        have : u = item.url := by
          simpa [mkRow] using hsing
        subst this
        exact not_mem_map_url_of_not_exists hx humem
      · intro hdup
        rw [already_saved_eq_urlExists, hx] at hdup
        cases hdup

/-- Witness for `store_url_uniqueness` at a concrete store and duplicate
item. -/
theorem store_url_uniqueness_witness :
    ∃ s1, save_item DbFault.healthy [rowA] itemADup (Json.str "x") = Except.ok s1 ∧
      urlsUnique s1 ∧ (already_saved [rowA] itemADup.url = true → s1 = [rowA]) :=
  store_url_uniqueness DbFault.healthy [rowA] itemADup (Json.str "x") (by decide)

/-- C10: save_item swallows every exception of the INSERT, not only the
duplicate-url violation: for every fault mode it completes with an `ok`,
and whenever the INSERT raises it returns the unchanged store through the
same `ok` shape a successful insert uses, so its caller cannot tell a
lost write from a successful one. -/
theorem save_item_swallows_all (fault : DbFault) (s : List Row) (item : Item)
    (reason : Json) :
    (∃ s1, save_item fault s item reason = Except.ok s1) ∧
      (∀ e, sqliteInsert fault s (mkRow item reason) = Except.error e →
        save_item fault s item reason = Except.ok s) := by
  constructor
  · cases h : sqliteInsert fault s (mkRow item reason) with
    | ok s2 => exact ⟨s2, by simp [save_item, h]⟩
    | error e => exact ⟨s, by simp [save_item, h]⟩
  · intro e he
    simp [save_item, he]

/-- Witness for `save_item_swallows_all`: the INSERT against a missing
table raises, and save_item still returns the unchanged store. -/
theorem save_item_swallows_all_witness :
    save_item DbFault.missingTable [] itemA (Json.str "r") = Except.ok [] :=
  (save_item_swallows_all DbFault.missingTable [] itemA (Json.str "r")).2
    DbError.noSuchTable rfl

/-! ## Helper lemmas about the orchestrator loop -/

theorem processLoop_mono (classify : String → String → Except CError (Json × Json))
    {u : String} :
    ∀ (items : List Item) (s : List Row) (n r : Nat) (s1 : List Row) (n1 r1 : Nat),
      processLoop classify s n r items = Except.ok (s1, n1, r1) →
      urlExists s u = true → urlExists s1 u = true := by
  intro items
  induction items with
  | nil =>
    intro s n r s1 n1 r1 h hu
    simp only [processLoop, Except.ok.injEq, Prod.mk.injEq] at h
    obtain ⟨hs, _, _⟩ := h
    rw [← hs]
    exact hu
  | cons item rest ih =>
    intro s n r s1 n1 r1 h hu
    simp only [processLoop] at h
    cases hsaved : already_saved s item.url with
    | true =>
      rw [hsaved] at h
      simp only [if_true] at h
      exact ih s n r s1 n1 r1 h hu
    | false =>
      rw [hsaved] at h
      simp only [Bool.false_eq_true, if_false] at h
      cases hc : classify item.title item.summary with
      | error e => rw [hc] at h; cases h
      | ok vp =>
        obtain ⟨v, reason⟩ := vp
        simp only [hc] at h
        cases ht : truthy v with
        | true =>
          rw [ht] at h
          simp only [if_true] at h
          exact ih _ _ _ _ _ _ h (urlExists_saveItemState_mono item reason hu)
        | false =>
          rw [ht] at h
          simp only [Bool.false_eq_true, if_false] at h
          exact ih _ _ _ _ _ _ h hu

theorem processLoop_restart (classify : String → String → Except CError (Json × Json)) :
    ∀ (items : List Item) (s : List Row) (n r : Nat) (s1 : List Row) (n1 r1 : Nat),
      processLoop classify s n r items = Except.ok (s1, n1, r1) →
      ∀ n2 r2, ∃ n3 r3, processLoop classify s1 n2 r2 items = Except.ok (s1, n3, r3) := by
  intro items
  induction items with
  | nil =>
    intro s n r s1 n1 r1 h n2 r2
    simp only [processLoop, Except.ok.injEq, Prod.mk.injEq] at h
    obtain ⟨hs, _, _⟩ := h
    subst hs
    exact ⟨n2, r2, rfl⟩
  | cons item rest ih =>
    intro s n r s1 n1 r1 h n2 r2
    simp only [processLoop] at h
    cases hsaved : already_saved s item.url with
    | true =>
      rw [hsaved] at h
      simp only [if_true] at h
      have hex : urlExists s item.url = true := by
        rw [← already_saved_eq_urlExists]; exact hsaved
      have hs1 : urlExists s1 item.url = true :=
        processLoop_mono classify rest s n r s1 n1 r1 h hex
      obtain ⟨n3, r3, hrun⟩ := ih s n r s1 n1 r1 h n2 r2
      refine ⟨n3, r3, ?_⟩
      simp only [processLoop, already_saved_eq_urlExists, hs1, if_true]
      exact hrun
    | false =>
      rw [hsaved] at h
      simp only [Bool.false_eq_true, if_false] at h
      cases hc : classify item.title item.summary with
      | error e => rw [hc] at h; cases h
      | ok vp =>
        obtain ⟨v, reason⟩ := vp
        simp only [hc] at h
        cases ht : truthy v with
        | true =>
          rw [ht] at h
          simp only [if_true] at h
          have hs1 : urlExists s1 item.url = true :=
            processLoop_mono classify rest _ _ _ _ _ _ h
              (urlExists_saveItemState_self s item reason)
          obtain ⟨n3, r3, hrun⟩ := ih _ _ _ _ _ _ h n2 r2
          refine ⟨n3, r3, ?_⟩
          simp only [processLoop, already_saved_eq_urlExists, hs1, if_true]
          exact hrun
        | false =>
          rw [ht] at h
          simp only [Bool.false_eq_true, if_false] at h
          cases hs1 : already_saved s1 item.url with
          | true =>
            obtain ⟨n3, r3, hrun⟩ := ih _ _ _ _ _ _ h n2 r2
            refine ⟨n3, r3, ?_⟩
            simp only [processLoop, hs1, if_true]
            exact hrun
          | false =>
            obtain ⟨n3, r3, hrun⟩ := ih _ _ _ _ _ _ h (n2 + 1) r2
            refine ⟨n3, r3, ?_⟩
            simp only [processLoop, hs1, Bool.false_eq_true, if_false, hc, ht]
            exact hrun

/-- C4: the pipeline is idempotent with respect to storage.  If a run
over given upstream responses completes with report `rep`, a second run
over the same upstream starting from the store `rep.store` completes and
adds nothing: its final store is again `rep.store`. -/
theorem pipeline_idempotent (apiKey : Option String)
    (service : String → String → Except TransportFail String)
    (s : List Row) (pressFeed litigationFeed : List RssEntry)
    (meetingsResp : Except FetchError MeetingsResponse) (rep : RunReport)
    (h : run_pipeline apiKey service s pressFeed litigationFeed meetingsResp =
      Except.ok rep) :
    ∃ rep2, run_pipeline apiKey service rep.store pressFeed litigationFeed
        meetingsResp = Except.ok rep2 ∧ rep2.store = rep.store := by
  unfold run_pipeline at h ⊢
  cases hm : fetch_meeting_items meetingsResp with
  | error e => rw [hm] at h; simp at h
  | ok all3 =>
    rw [hm] at h
    simp only [] at h ⊢
    cases hp : processLoop
        (fun t sm => is_crypto_related apiKey (service t sm) t sm) s 0 0
        (fetch_rss_items pressFeed "press_release" ++
          fetch_rss_items litigationFeed "litigation_release" ++ all3) with
    | error e => simp only [hp] at h; cases h
    | ok triple =>
      obtain ⟨s2, n2, r2⟩ := triple
      simp only [hp, Except.ok.injEq] at h
      subst h
      obtain ⟨n3, r3, hrun⟩ := processLoop_restart
        (fun t sm => is_crypto_related apiKey (service t sm) t sm) _ _ _ _ _ _ _ hp 0 0
      refine ⟨{ store := s2, newCount := n3, relevantCount := r3, done := true },
        ?_, rfl⟩
      simp only [hrun]

/-- Witness for `pipeline_idempotent`: a concrete first run stores one
item; the re-run from its store stores nothing new. -/
theorem pipeline_idempotent_witness :
    ∃ rep2, run_pipeline (some "k") serviceAlwaysRelevant repFirstRun.store
        [entryCrypto] [] (Except.ok respEmpty) = Except.ok rep2 ∧
      rep2.store = repFirstRun.store :=
  pipeline_idempotent (some "k") serviceAlwaysRelevant [] [entryCrypto] []
    (Except.ok respEmpty) repFirstRun rfl

/-- C1 counterexample: with a feed item available and the meetings-page
fetch raising a timeout, run_pipeline propagates the FetchError instead
of isolating it: the run terminates abnormally, the feed item is not
analyzed or stored, and the DONE report is never produced. -/
theorem fetch_isolation_counterexample :
    run_pipeline (some "k") serviceAlwaysRelevant [] [entryCrypto] []
      (Except.error FetchError.timedOut) =
    Except.error (RunError.fetch FetchError.timedOut) := rfl

/-- C1 amended: a feed outage cannot raise (feedparser yields an empty
entries list), so with a feed source contributing nothing the run still
completes its DONE report from the remaining sources; but a FetchError
raised by the meetings-page fetch is not caught anywhere in
run_pipeline: it aborts the run before any item is analyzed or stored. -/
theorem fetch_isolation_amended :
    (∀ (apiKey : Option String)
        (service : String → String → Except TransportFail String)
        (s : List Row) (pressFeed litigationFeed : List RssEntry) (e : FetchError),
      run_pipeline apiKey service s pressFeed litigationFeed (Except.error e) =
        Except.error (RunError.fetch e)) ∧
    (∀ (apiKey : Option String)
        (service : String → String → Except TransportFail String)
        (s : List Row) (litigationFeed : List RssEntry)
        (meetingsResp : Except FetchError MeetingsResponse)
        (all3 : List Item) (s2 : List Row) (n r : Nat),
      fetch_meeting_items meetingsResp = Except.ok all3 →
      processLoop (fun t sm => is_crypto_related apiKey (service t sm) t sm) s 0 0
        (fetch_rss_items litigationFeed "litigation_release" ++ all3) =
        Except.ok (s2, n, r) →
      run_pipeline apiKey service s [] litigationFeed meetingsResp =
        Except.ok { store := s2, newCount := n, relevantCount := r, done := true }) := by
  constructor
  · intro apiKey service s pressFeed litigationFeed e
    rfl
  · intro apiKey service s litigationFeed meetingsResp all3 s2 n r h1 h2
    unfold run_pipeline
    rw [h1]
    show ((match processLoop (fun t sm => is_crypto_related apiKey (service t sm) t sm)
        s 0 0 (fetch_rss_items litigationFeed "litigation_release" ++ all3) with
      | Except.error e => Except.error (RunError.classify e)
      | Except.ok (s2, n, r) =>
        Except.ok { store := s2, newCount := n, relevantCount := r, done := true }) :
      Except RunError RunReport) =
      Except.ok { store := s2, newCount := n, relevantCount := r, done := true }
    rw [h2]

/-- Witness for `fetch_isolation_amended`: the error conjunct at a
concrete connection failure, and the degradation conjunct at a concrete
run where the press source contributes nothing and the litigation item is
still stored with the DONE report reached. -/
theorem fetch_isolation_amended_witness :
    run_pipeline (some "k") serviceAlwaysRelevant [] [entryCrypto] []
        (Except.error FetchError.connectionFailed) =
      Except.error (RunError.fetch FetchError.connectionFailed) ∧
    run_pipeline (some "k") serviceAlwaysRelevant [] [] [entryCrypto2]
        (Except.ok respEmpty) =
      Except.ok { store := [mkRow (rssItem "litigation_release" entryCrypto2)
                    (Json.str "crypto")],
                  newCount := 1, relevantCount := 1, done := true } :=
  ⟨fetch_isolation_amended.1 (some "k") serviceAlwaysRelevant [] [entryCrypto] []
      FetchError.connectionFailed,
   fetch_isolation_amended.2 (some "k") serviceAlwaysRelevant [] [entryCrypto2]
      (Except.ok respEmpty) []
      [mkRow (rssItem "litigation_release" entryCrypto2) (Json.str "crypto")]
      1 1 rfl rfl⟩

/-- C2 counterexample: with no credential configured, is_crypto_related
does not return the no-verdict result at a concrete reply — the client
constructor raises instead. -/
theorem classifier_disabled_counterexample :
    is_crypto_related none (Except.ok "any reply") "t" "s" =
      Except.error CError.noCredential ∧
    is_crypto_related none (Except.ok "any reply") "t" "s" ≠ Except.ok noVerdict :=
  ⟨rfl, fun h => Except.noConfusion h⟩

/-- C2 amended: when no credential is configured the classifier is not a
no-verdict short-circuit: constructing the service client raises, so
is_crypto_related signals `noCredential` for every item — independently
of the service reply, so no request is consumed — and this exception is
an error its callers must face, not a disabled-classifier result. -/
theorem classifier_disabled_amended (serviceReply : Except TransportFail String)
    (title summary : String) :
    is_crypto_related none serviceReply title summary =
      Except.error CError.noCredential := rfl

/-- C5: evaluation at the failing input.  A service reply whose payload
is valid JSON but not an object — here the list `[1, 2]` — makes
`result.get` raise AttributeError (only json.JSONDecodeError is caught),
instead of the no-verdict result the code's own docstring and the spec
promise. -/
theorem classifier_nondict_reply_bug :
    is_crypto_related (some "sk") (Except.ok "[1, 2]") "t" "s" =
      Except.error CError.attributeError ∧
    is_crypto_related (some "sk") (Except.ok "[1, 2]") "t" "s" ≠
      Except.ok noVerdict :=
  ⟨rfl, fun h => Except.noConfusion h⟩

/-- C6 counterexample: a concrete run in which the classification call
for the first new item times out: run_pipeline surfaces the transport
failure instead of recording a no-verdict for that item and carrying on,
so the second item is never analyzed and DONE is not reached. -/
theorem classify_transport_counterexample :
    run_pipeline (some "k") serviceTimesOut [] [entryCrypto, entryCrypto2] []
      (Except.ok respEmpty) =
    Except.error (RunError.classify (CError.transport TransportFail.timedOut)) := rfl

/-- C6 amended: a transport-level failure of the classification call is
not caught: is_crypto_related propagates it, the per-item loop stops at
the failing item without processing the rest, and run_pipeline surfaces
the error instead of reaching its DONE report. -/
theorem classify_transport_amended :
    (∀ (k : String) (te : TransportFail) (title summary : String),
      is_crypto_related (some k) (Except.error te) title summary =
        Except.error (CError.transport te)) ∧
    (∀ (classify : String → String → Except CError (Json × Json)) (s : List Row)
        (n r : Nat) (item : Item) (rest : List Item) (e : CError),
      already_saved s item.url = false →
      classify item.title item.summary = Except.error e →
      processLoop classify s n r (item :: rest) = Except.error e) ∧
    (∀ (apiKey : Option String)
        (service : String → String → Except TransportFail String)
        (s : List Row) (pressFeed litigationFeed : List RssEntry)
        (meetingsResp : Except FetchError MeetingsResponse)
        (all3 : List Item) (e : CError),
      fetch_meeting_items meetingsResp = Except.ok all3 →
      processLoop (fun t sm => is_crypto_related apiKey (service t sm) t sm) s 0 0
        (fetch_rss_items pressFeed "press_release" ++
          fetch_rss_items litigationFeed "litigation_release" ++ all3) =
        Except.error e →
      run_pipeline apiKey service s pressFeed litigationFeed meetingsResp =
        Except.error (RunError.classify e)) := by
  refine ⟨fun k te title summary => rfl, ?_, ?_⟩
  · intro classify s n r item rest e h1 h2
    simp [processLoop, h1, h2]
  · intro apiKey service s pressFeed litigationFeed meetingsResp all3 e h1 h2
    unfold run_pipeline
    rw [h1]
    simp only [h2]

/-- Witness for `classify_transport_amended`: the propagation conjunct at
a concrete 500-status failure, and the run-level conjunct at a concrete
aborted run. -/
theorem classify_transport_amended_witness :
    is_crypto_related (some "k") (Except.error (TransportFail.apiStatus 500)) "t" "s" =
      Except.error (CError.transport (TransportFail.apiStatus 500)) ∧
    run_pipeline (some "k") serviceTimesOut [] [] [entryCrypto2]
        (Except.ok respEmpty) =
      Except.error (RunError.classify (CError.transport TransportFail.timedOut)) :=
  ⟨classify_transport_amended.1 "k" (TransportFail.apiStatus 500) "t" "s",
   classify_transport_amended.2.2 (some "k") serviceTimesOut [] [] [entryCrypto2]
     (Except.ok respEmpty) [] (CError.transport TransportFail.timedOut) rfl rfl⟩

/-- C7 counterexample: an item recorded with the out-of-range score 7 is
not displayed as score-absent: ai_score_html renders a `7/5` span (with
the fallback color) rather than the no-score marker. -/
theorem ai_score_range_counterexample :
    ai_score_html itemScore7 =
      "<span class=\"ai-score\" style=\"color:#484f58\" title=\"n/a\">7<span class=\"score-of\">/5</span></span>" ∧
    ai_score_html itemScore7 ≠ NO_SCORE_HTML :=
  ⟨rfl, by decide⟩

/-- C7 amended: the display layer treats a falsy score — absent or 0 —
as absent and renders the no-score marker; every nonzero score, in range
or not, is rendered by the score span, with out-of-range values getting
the fallback color rather than being treated as absent. -/
theorem ai_score_range_amended (item : JsonItem) :
    (item.ai_score = none → ai_score_html item = NO_SCORE_HTML) ∧
    (item.ai_score = some 0 → ai_score_html item = NO_SCORE_HTML) ∧
    (∀ sc : Int, item.ai_score = some sc → sc ≠ 0 →
      ai_score_html item = scoreSpanHtml sc (item.ai_score_reason.getD "")) := by
  refine ⟨?_, ?_, ?_⟩
  · intro h; simp [ai_score_html, h]
  · intro h; simp [ai_score_html, h]
  · intro sc h hnz; simp [ai_score_html, h, hnz]

/-- Witness for `ai_score_range_amended` at a score-free item and at the
out-of-range score 7. -/
theorem ai_score_range_amended_witness :
    ai_score_html itemNoScore = NO_SCORE_HTML ∧
    ai_score_html itemScore7 = scoreSpanHtml 7 "n/a" :=
  ⟨(ai_score_range_amended itemNoScore).1 rfl,
   (ai_score_range_amended itemScore7).2.2 7 rfl (by decide)⟩

/-- C8 counterexample: a meetings card with a title and no description
yields an item whose summary is the title followed by a period — so an
item whose source gives no summary does not have summary equal to its
title, refuting the data-model clause as applied to the page fetcher. -/
theorem summary_fallback_counterexample :
    fetch_meeting_items (Except.ok respOneCard) =
      Except.ok [{ source := "open_meeting", title := "Sunshine Act Meeting",
                   url := "https://www.sec.gov/news/m1",
                   published := "Jan 9, 2025",
                   summary := "Sunshine Act Meeting." }] ∧
    ("Sunshine Act Meeting." : String) ≠ "Sunshine Act Meeting" :=
  ⟨rfl, by decide⟩

/-- C8 amended: the feed fetcher falls back to the entry title exactly
when the entry has no summary key, so such feed items have summary equal
to their (stripped) title; the page fetcher synthesizes summary as the
stripped `title`, dot, space, `description` — which for a card without a
description is the title followed by a period: synthesized and nonempty
whenever the title is, but not equal to the title. -/
theorem summary_fallback_amended :
    (∀ (src : String) (e : RssEntry), e.summary = none →
      (rssItem src e).summary = (rssItem src e).title) ∧
    (∀ (card : MeetingCard) (t href : String), card.heading = some (t, href) →
      meetingCardItem card =
        some { source := "open_meeting", title := t,
               url := "https://www.sec.gov" ++ href,
               published := card.dateText.getD "",
               summary := pyStrip (t ++ ". " ++ card.description.getD "") }) := by
  constructor
  · intro src e h
    simp [rssItem, h]
  · intro card t href h
    simp [meetingCardItem, h]

/-- Witness for `summary_fallback_amended`: a bare feed entry whose
summary equals its title, and the concrete card without a description. -/
theorem summary_fallback_amended_witness :
    (rssItem "press_release" entryBare).summary =
      (rssItem "press_release" entryBare).title ∧
    meetingCardItem cardNoDesc =
      some { source := "open_meeting", title := "Sunshine Act Meeting",
             url := "https://www.sec.gov/news/m1", published := "Jan 9, 2025",
             summary := pyStrip ("Sunshine Act Meeting" ++ ". " ++ "") } :=
  ⟨summary_fallback_amended.1 "press_release" entryBare rfl,
   summary_fallback_amended.2 cardNoDesc "Sunshine Act Meeting" "/news/m1" rfl⟩

/-- C9: the displayed listing is ordered newest-first by ingestion time:
whenever the item at position `i` was ingested strictly earlier than the
item at position `j`, position `j` comes first (the later-ingested item
is presented before the earlier one). -/
theorem display_newest_first (rows : List JsonItem) (now : String)
    (i j : Fin (displayed rows now).length)
    (h : ((displayed rows now).get i).created_at <
      ((displayed rows now).get j).created_at) :
    (j : Nat) < (i : Nat) := by
  have hs : List.Sorted newest_first (displayed rows now) :=
    List.sorted_insertionSort newest_first rows
  rcases Nat.lt_trichotomy (i : Nat) (j : Nat) with hij | hij | hij
  · have hlt : i < j := hij
    have hrel := List.Sorted.rel_get_of_lt hs hlt
    exact absurd h (not_lt.mpr hrel)
  · have heq : i = j := Fin.ext hij
    subst heq
    exact absurd h (lt_irrefl _)
  · exact hij

/-- Witness for `display_newest_first`: two concrete records ingested at
times 1 and 2; in the displayed listing the position of the later record
(index 0) precedes the position of the earlier one (index 1). -/
theorem display_newest_first_witness :
    ((displayed [jOld, jNew] "t").get ⟨1, by decide⟩).created_at <
      ((displayed [jOld, jNew] "t").get ⟨0, by decide⟩).created_at ∧
    (0 : Nat) < 1 :=
  ⟨by decide,
   display_newest_first [jOld, jNew] "t" ⟨1, by decide⟩ ⟨0, by decide⟩ (by decide)⟩

end SecMonitor
